import Mathlib

/-!
Verification development for the CodePet behavior engine.

The definitions below are a shallow embedding of the Python sources:
  - `src/core/pet/model.py`   (MoodType, ActionType, StateType, PetModel)
  - `src/core/pet/controller.py` (PetController and its handlers)
  - `src/core/events.py`      (EventSystem)
  - `src/ui/animator.py`, `src/ui/window.py` (Animator, PetWindow.play_animation)

Python floats for vitals, durations and timestamps are modelled as rationals.
Randomness (random.random, random.uniform, random.choice) is passed in as
explicit parameters.  Emitted bus events are collected in a result list.
-/

namespace CodePet

/-- Mood enumeration from model.py.  Note: there is no `surprised` member. -/
inductive MoodType where
  | normal
  | happy
  | tired
  | playful
  | relaxed
  | excited
  | sad
  | sleepy
  deriving DecidableEq

/-- Action enumeration from model.py. -/
inductive ActionType where
  | idle
  | work
  | rest
  | sleep
  | eat
  | play
  | alert
  | happy
  | celebrate
  | encourage
  | tired
  | surprised
  | react
  deriving DecidableEq

/-- State enumeration from model.py. -/
inductive StateType where
  | idle
  | working
  | sleeping
  deriving DecidableEq

/-- The .value string of a MoodType member, as in the Python enum. -/
def MoodType.value : MoodType → String
  | .normal => "normal"
  | .happy => "happy"
  | .tired => "tired"
  | .playful => "playful"
  | .relaxed => "relaxed"
  | .excited => "excited"
  | .sad => "sad"
  | .sleepy => "sleepy"

/-- The .value string of an ActionType member, as in the Python enum. -/
def ActionType.value : ActionType → String
  | .idle => "idle"
  | .work => "work"
  | .rest => "rest"
  | .sleep => "sleep"
  | .eat => "eat"
  | .play => "play"
  | .alert => "alert"
  | .happy => "happy"
  | .celebrate => "celebrate"
  | .encourage => "encourage"
  | .tired => "tired"
  | .surprised => "surprised"
  | .react => "react"

/-- The .value string of a StateType member, as in the Python enum. -/
def StateType.value : StateType → String
  | .idle => "idle"
  | .working => "working"
  | .sleeping => "sleeping"

/-- The slice of PetModel (model.py) that the controller logic reads and writes. -/
structure PetModel where
  name : String
  pet_type : String
  state : StateType
  mood : MoodType
  current_action : ActionType
  energy : ℚ
  happiness : ℚ
  deriving DecidableEq

/-- The temporary-action record stored in PetController._temporary_action_info. -/
structure TempInfo where
  action : ActionType
  end_time : ℚ
  deriving DecidableEq

/-- Controller state: the pet model, the optional temporary-action record and
the timestamp of the last core stats update. -/
structure PetController where
  pet : PetModel
  temporary_action_info : Option TempInfo
  last_state_update : ℚ
  deriving DecidableEq

/-- Configuration values read through config.get_setting in controller.py,
with the defaults hard-coded at each call site. -/
structure Config where
  decay_energy_working : ℚ := 2
  decay_happiness_working : ℚ := 1
  regen_energy_idle : ℚ := 1
  decay_happiness_idle : ℚ := 1/2
  regen_energy_sleeping : ℚ := 5
  regen_happiness_sleeping : ℚ := 2
  low_energy_threshold : ℚ := 20
  alert_low_energy_duration : ℚ := 5
  energy_tired : ℚ := 20
  happiness_sad : ℚ := 30
  energy_happy_excited : ℚ := 80
  happiness_happy_excited : ℚ := 70
  energy_normal : ℚ := 60
  happiness_normal : ℚ := 50
  idle_to_sleep_in_work : ℚ := 1800
  idle_to_bored_in_work : ℚ := 600
  rest_when_bored : ℚ := 10
  happiness_on_click : ℚ := 2
  energy_on_feed : ℚ := 20
  happiness_on_feed : ℚ := 10
  eat_duration : ℚ := 3
  state_update_interval : ℚ := 10

/-- Events emitted on the bus by the controller, with their .value payloads. -/
inductive Emitted where
  | moodChanged (character prev cur : String)
  | actionChanged (character prev cur : String)
  | stateChanged (character prev cur : String)
  | playAnimation (character action mood : String)
  | petAlert
  | statsUpdated
  | userMaybeAfk
  deriving DecidableEq

/-- PetController.set_mood: a no-op when the mood is unchanged, otherwise the
mood is updated and pet_mood_changed is emitted once. -/
def set_mood (c : PetController) (mood : MoodType) : PetController × List Emitted :=
  let prev := c.pet.mood
  if prev = mood then (c, [])
  else
    ({ c with pet := { c.pet with mood := mood } },
     [Emitted.moodChanged c.pet.pet_type prev.value mood.value])

/-- PetController.set_action: clears any pending temporary-action record,
updates current_action, always emits ui_play_animation, emits
pet_action_changed only on an actual change, and installs a new
temporary-action record when a positive duration is given. -/
def set_action (c : PetController) (action : ActionType) (duration : Option ℚ)
    (now : ℚ) : PetController × List Emitted :=
  let c1 : PetController := { c with temporary_action_info := none }
  let prev := c1.pet.current_action
  let c2 : PetController := { c1 with pet := { c1.pet with current_action := action } }
  let evs :=
    Emitted.playAnimation c2.pet.pet_type action.value c2.pet.mood.value ::
      (if prev ≠ action then
        [Emitted.actionChanged c2.pet.pet_type prev.value action.value]
      else [])
  match duration with
  | some d =>
      if d > 0 then
        ({ c2 with temporary_action_info := some ⟨action, now + d⟩ }, evs)
      else (c2, evs)
  | none => (c2, evs)

/-- Default configuration: every get_setting call falls back to its default. -/
def defaultConfig : Config := {}

/-- The PetModel constructed at startup (model.py defaults, pet.type cat). -/
def initPet : PetModel :=
  { name := "pipi", pet_type := "cat", state := .idle, mood := .normal,
    current_action := .idle, energy := 100, happiness := 60 }

/-- A freshly initialized controller. -/
def initCtrl : PetController :=
  { pet := initPet, temporary_action_info := none, last_state_update := 0 }

/-- The default main action of each state, as in PetController.set_state. -/
def default_action_for_state : StateType → ActionType
  | .idle => .idle
  | .working => .work
  | .sleeping => .sleep

/-- PetController.set_state: updates the coarse state and then selects the
entry mood and action for the new state.  `playDur` stands for the
random.uniform(3.0, 7.0) duration drawn in the Idle branch. -/
def set_state (c : PetController) (state : StateType) (now playDur : ℚ) :
    PetController × List Emitted :=
  let prev := c.pet.state
  if prev = state then
    if c.pet.current_action ≠ default_action_for_state state then
      set_action c (default_action_for_state state) none now
    else (c, [])
  else
    let c1 : PetController := { c with pet := { c.pet with state := state } }
    let evs0 := [Emitted.stateChanged c1.pet.pet_type prev.value state.value]
    match state with
    | .working =>
        let p2 :=
          if c1.pet.energy > 70 then set_mood c1 .happy
          else if c1.pet.energy < 30 then set_mood c1 .tired
          else set_mood c1 .normal
        let p3 := set_action p2.1 .work none now
        (p3.1, evs0 ++ p2.2 ++ p3.2)
    | .idle =>
        if c1.pet.energy > 70 ∧ c1.pet.happiness > 60 then
          let p2 := set_mood c1 .playful
          let p3 := set_action p2.1 .play (some playDur) now
          (p3.1, evs0 ++ p2.2 ++ p3.2)
        else if c1.pet.energy < 30 then
          let p2 := set_mood c1 .tired
          let p3 := set_action p2.1 .rest none now
          (p3.1, evs0 ++ p2.2 ++ p3.2)
        else
          let p2 := set_mood c1 .relaxed
          let p3 := set_action p2.1 .idle none now
          (p3.1, evs0 ++ p2.2 ++ p3.2)
    | .sleeping =>
        let p2 := set_mood c1 .sleepy
        let p3 := set_action p2.1 .sleep none now
        (p3.1, evs0 ++ p2.2 ++ p3.2)

/-- PetController._update_mood_based_on_stats: recomputes the mood from the
vitals; tired/sad thresholds first, and a negative mood is not overwritten by
the neutral default. -/
def computed_mood (cfg : Config) (c : PetController) : MoodType :=
  let e := c.pet.energy
  let h := c.pet.happiness
  if e < cfg.energy_tired then MoodType.tired
  else if h < cfg.happiness_sad then MoodType.sad
  else if e > cfg.energy_happy_excited ∧ h > cfg.happiness_happy_excited then
    (if c.pet.state = .working then MoodType.excited else MoodType.happy)
  else if e > cfg.energy_normal ∧ h > cfg.happiness_normal then
    (if c.pet.mood ∉ [MoodType.tired, MoodType.sad] then MoodType.normal
     else c.pet.mood)
  else
    (if c.pet.mood ∉ [MoodType.tired, MoodType.sad, MoodType.sleepy] then
      MoodType.normal
     else c.pet.mood)

/-- Tail of PetController._update_mood_based_on_stats: call set_mood only
when the recomputed mood differs from the current one. -/
def update_mood_based_on_stats (cfg : Config) (c : PetController) :
    PetController × List Emitted :=
  if c.pet.mood ≠ computed_mood cfg c then set_mood c (computed_mood cfg c)
  else (c, [])

/-- First half of PetController.update_pet_stats_periodically (lines 269-285):
the consolidated temporary-action expiry check.  When the record has expired
it is cleared, and the action reverts to Idle only if current_action still
equals the recorded action. -/
def check_temporary_action (c : PetController) (now : ℚ) :
    PetController × List Emitted :=
  match c.temporary_action_info with
  | some info =>
      if now ≥ info.end_time then
        let c1 : PetController := { c with temporary_action_info := none }
        if c1.pet.current_action = info.action then
          set_action c1 .idle none now
        else (c1, [])
      else (c, [])
  | none => (c, [])

/-- Second half of PetController.update_pet_stats_periodically (from line 289):
the slower vitals tick that decays or regenerates energy and happiness,
recomputes the mood, and fires the low-energy alert while working. -/
def periodic_core_update (cfg : Config) (c : PetController) (now : ℚ) :
    PetController × List Emitted :=
  if now - c.last_state_update ≥ cfg.state_update_interval then
    let c1 : PetController := { c with last_state_update := now }
    let c2 : PetController :=
      match c1.pet.state with
      | .working =>
          { c1 with pet := { c1.pet with
              energy := max 0 (c1.pet.energy - cfg.decay_energy_working),
              happiness := max 0 (c1.pet.happiness - cfg.decay_happiness_working) } }
      | .idle =>
          let en := min 100 (c1.pet.energy + cfg.regen_energy_idle)
          let hp :=
            if c1.pet.mood = .playful then min 100 (c1.pet.happiness + 1)
            else max 0 (c1.pet.happiness - cfg.decay_happiness_idle)
          { c1 with pet := { c1.pet with energy := en, happiness := hp } }
      | .sleeping =>
          { c1 with pet := { c1.pet with
              energy := min 100 (c1.pet.energy + cfg.regen_energy_sleeping),
              happiness := min 100 (c1.pet.happiness + cfg.regen_happiness_sleeping) } }
    let p3 := update_mood_based_on_stats cfg c2
    let p4 :=
      if p3.1.pet.energy < cfg.low_energy_threshold ∧ p3.1.pet.state = .working then
        let pa :=
          if p3.1.pet.current_action ≠ ActionType.alert then
            set_action p3.1 .alert (some cfg.alert_low_energy_duration) now
          else (p3.1, [])
        (pa.1, pa.2 ++ [Emitted.petAlert])
      else (p3.1, [])
    (p4.1, p3.2 ++ p4.2 ++ [Emitted.statsUpdated])
  else (c, [])

/-- PetController.update_pet_stats_periodically: the expiry check followed by
the periodic vitals update. -/
def update_pet_stats_periodically (cfg : Config) (c : PetController) (now : ℚ) :
    PetController × List Emitted :=
  let p1 := check_temporary_action c now
  let p2 := periodic_core_update cfg p1.1 now
  (p2.1, p1.2 ++ p2.2)

/-- PetController._on_programming_idle: meaningful only while Working; long
idleness sends the pet to sleep, medium idleness installs a timed Rest. -/
def on_programming_idle (cfg : Config) (c : PetController)
    (idle_time now playDur : ℚ) : PetController × List Emitted :=
  if c.pet.state = .working then
    if idle_time > cfg.idle_to_sleep_in_work then
      set_state c .sleeping now playDur
    else if idle_time > cfg.idle_to_bored_in_work then
      let p1 := set_mood c .relaxed
      let p2 := set_action p1.1 .rest (some cfg.rest_when_bored) now
      (p2.1, p1.2 ++ p2.2 ++ [Emitted.userMaybeAfk])
    else (c, [])
  else (c, [])

/-- PetController._on_pet_interaction.  `surprised` is the draw
random.random() < 0.5, `reactDur` the uniform(react_min, react_max) draw and
`playDur` the uniform(3.0, 7.0) draw used inside set_state.  The returned
Bool is true when the handler raises: in the click branch on a pet that is
not sleeping, the surprised draw evaluates MoodType.SURPRISED, a member that
does not exist in model.py, so the handler aborts with an AttributeError
before mutating anything (the bus catches it). -/
def on_pet_interaction (cfg : Config) (c : PetController)
    (itype character : String) (surprised : Bool) (reactDur playDur now : ℚ) :
    PetController × List Emitted × Bool :=
  if character ≠ c.pet.pet_type then (c, [], false)
  else
    let tail := fun (c1 : PetController) (evs : List Emitted) =>
      let p2 := update_mood_based_on_stats cfg c1
      (p2.1, evs ++ p2.2 ++ [Emitted.statsUpdated], false)
    if itype = "click" then
      if c.pet.state = .sleeping then
        let p1 := set_state c .idle now playDur
        tail p1.1 p1.2
      else if surprised then
        (c, [], true)
      else
        let p1 := set_mood c .playful
        let p2 := set_action p1.1 .react (some reactDur) now
        let c3 : PetController := { p2.1 with pet := { p2.1.pet with
            happiness := min 100 (p2.1.pet.happiness + cfg.happiness_on_click) } }
        tail c3 (p1.2 ++ p2.2)
    else if itype = "feed" then
      if c.pet.state ≠ .sleeping then
        let p1 := set_mood c .happy
        let p2 := set_action p1.1 .eat (some cfg.eat_duration) now
        let c3 : PetController := { p2.1 with pet := { p2.1.pet with
            energy := min 100 (p2.1.pet.energy + cfg.energy_on_feed),
            happiness := min 100 (p2.1.pet.happiness + cfg.happiness_on_feed) } }
        tail c3 (p1.2 ++ p2.2)
      else tail c []
    else tail c []

/-- Runs a whole sequence of set_action calls, each given as
(action, duration, call time). -/
def apply_set_actions (c : PetController) :
    List (ActionType × Option ℚ × ℚ) → PetController
  | [] => c
  | (a, d, t) :: rest => apply_set_actions (set_action c a d t).1 rest

/-- The temporary-action bookkeeping invariant: the single optional record,
when present, names the current action. -/
def temp_ok (c : PetController) : Bool :=
  match c.temporary_action_info with
  | none => true
  | some info => info.action = c.pet.current_action

/-- Handlers are identified abstractly; the bus stores them by reference. -/
abbrev Handler := Nat

/-- Event payloads are string dictionaries; the empty list is the empty dict. -/
abbrev EvData := List (String × String)

/-- The EventSystem of events.py: a mapping from event name to the ordered
list of registered handlers. -/
structure EventSystem where
  listeners : List (String × List Handler)
  deriving DecidableEq

/-- Association-list lookup over the listeners mapping. -/
def lookupL : List (String × List Handler) → String → Option (List Handler)
  | [], _ => none
  | (k, v) :: rest, name => if k = name then some v else lookupL rest name

/-- Association-list update (or append) over the listeners mapping. -/
def setL : List (String × List Handler) → String → List Handler →
    List (String × List Handler)
  | [], name, v => [(name, v)]
  | (k, w) :: rest, name, v =>
      if k = name then (k, v) :: rest else (k, w) :: setL rest name v

/-- Association-list key removal over the listeners mapping. -/
def removeL : List (String × List Handler) → String →
    List (String × List Handler)
  | [], _ => []
  | (k, w) :: rest, name =>
      if k = name then rest else (k, w) :: removeL rest name

/-- EventSystem.register: create the key if needed, append the handler if it
is not already registered for this event. -/
def registerH (s : EventSystem) (name : String) (h : Handler) : EventSystem :=
  let cur := (lookupL s.listeners name).getD []
  if h ∈ cur then s else { listeners := setL s.listeners name (cur ++ [h]) }

/-- EventSystem.unregister: remove the handler when present, dropping the key
once its list becomes empty; a no-op for an unknown pair. -/
def unregisterH (s : EventSystem) (name : String) (h : Handler) : EventSystem :=
  match lookupL s.listeners name with
  | none => s
  | some cur =>
      if h ∈ cur then
        let cur1 := cur.erase h
        if cur1 = [] then { listeners := removeL s.listeners name }
        else { listeners := setL s.listeners name cur1 }
      else s

/-- Dispatch loop of EventSystem.emit over the snapshot list.  `run h d s`
gives the bus state after handler h observed data d in state s, plus a flag
recording whether the handler raised; the loop ignores the flag (the
exception is caught and logged) and always continues with the next handler.
Returns the final state and the handlers invoked, in order. -/
def emitRun (run : Handler → EvData → EventSystem → EventSystem × Bool) :
    List Handler → EvData → EventSystem → EventSystem × List Handler
  | [], _, s => (s, [])
  | h :: rest, d, s =>
      let p1 := run h d s
      let p2 := emitRun run rest d p1.1
      (p2.1, h :: p2.2)

/-- EventSystem.emit: the data defaults to the empty dict, the handler list is
snapshotted before dispatch, and every snapshotted handler is invoked even if
earlier ones raised or mutated the listener table.  Returns the final bus
state, the invoked handlers in order, and the data that was passed to them. -/
def emitH (run : Handler → EvData → EventSystem → EventSystem × Bool)
    (s : EventSystem) (name : String) (data : Option EvData) :
    EventSystem × List Handler × EvData :=
  let d := data.getD []
  match lookupL s.listeners name with
  | none => (s, [], d)
  | some hs =>
      let p := emitRun run hs d s
      (p.1, p.2, d)

/-- An animation frame handle (stands for one QPixmap). -/
abbrev Frame := Nat

/-- The Animator state of animator.py restricted to frame bookkeeping: the
cache of loaded sequences, the current animation and its frames and index. -/
structure AnimatorS where
  animations : List (String × List Frame)
  current_animation_name : Option String
  current_frames : List Frame
  current_frame_index : Nat
  deriving DecidableEq

/-- Association-list lookup over the animation cache. -/
def lookupA : List (String × List Frame) → String → Option (List Frame)
  | [], _ => none
  | (k, v) :: rest, name => if k = name then some v else lookupA rest name

/-- Animator.load_animation_sequence: on a cache hit, report whether the
cached frames are non-empty; on a miss, read the action folder from disk
(`disk name = []` stands for a missing folder or no valid frame images),
cache the result and report whether it is non-empty. -/
def load_animation_sequence (disk : String → List Frame) (a : AnimatorS)
    (name : String) : AnimatorS × Bool :=
  match lookupA a.animations name with
  | some frames => (a, frames ≠ [])
  | none =>
      let frames := disk name
      ({ a with animations := a.animations ++ [(name, frames)] }, frames ≠ [])

/-- Animator.set_current_animation: switch to the named sequence when it
loads with frames, resetting the index to 0; on failure keep the current
animation if one is playing, otherwise clear everything. -/
def set_current_animation (disk : String → List Frame) (a : AnimatorS)
    (name : String) : AnimatorS × Bool :=
  let p := load_animation_sequence disk a name
  let a1 := p.1
  if p.2 then
    let frames := (lookupA a1.animations name).getD []
    if frames ≠ [] then
      ({ a1 with current_animation_name := some name, current_frames := frames,
                 current_frame_index := 0 }, true)
    else if a1.current_frames = [] then
      ({ a1 with current_animation_name := none }, false)
    else (a1, false)
  else if a1.current_frames ≠ [] then (a1, false)
  else
    ({ a1 with current_animation_name := none, current_frames := [],
               current_frame_index := 0 }, false)

/-- Animator.next_frame: advance the index modulo the sequence length and
return the frame at the new index; an empty sequence yields no frame. -/
def next_frame (a : AnimatorS) : AnimatorS × Option Frame :=
  if h : a.current_frames = [] then (a, none)
  else
    let i := (a.current_frame_index + 1) % a.current_frames.length
    ({ a with current_frame_index := i },
     some (a.current_frames.get ⟨i, Nat.mod_lt _ (by
        cases hf : a.current_frames with
        | nil => exact absurd hf h
        | cons x xs => simp [hf]
      )⟩))

/-- Outcome of PetWindow.play_animation. -/
inductive PlayResult where
  | played (frames : List Frame)
  | noFrames
  | setFailed
  deriving DecidableEq

/-- PetWindow.play_animation: ask the Animator to switch to the action name;
when the switch succeeds play its frames, when the switch reports frames
missing show the no-frames text, and when the switch fails show the
cannot-play text. -/
def play_animation (disk : String → List Frame) (a : AnimatorS)
    (animation_name : String) : AnimatorS × PlayResult :=
  let p := set_current_animation disk a animation_name
  if p.2 then
    if p.1.current_frames ≠ [] then (p.1, .played p.1.current_frames)
    else (p.1, .noFrames)
  else (p.1, .setFailed)

/-- PetWindow._process_play_animation_event for a matching character: the
event carries both an action name and a mood name, but only the action name
is passed on to play_animation; the mood name is ignored. -/
def process_play_animation_event (disk : String → List Frame) (a : AnimatorS)
    (action_name _mood_name : String) : AnimatorS × PlayResult :=
  play_animation disk a action_name

/-- A freshly constructed Animator with an empty cache and nothing playing. -/
def freshAnimator : AnimatorS :=
  { animations := [], current_animation_name := none, current_frames := [],
    current_frame_index := 0 }

/-- Modelled from the spec: the four-step fallback chain of section 4.4 —
(1) exact (action, mood), (2) (action, Normal), (3) (Idle, mood),
(4) (Idle, Normal) — over an (action, mood)-keyed catalog; the code under
src/ has no such chain, so this definition follows the words of the spec and
is used only to compare the spec against the code. -/
def specFallbackResolve (catalog : String → String → List Frame)
    (actionName moodName : String) : Option (List Frame) :=
  if catalog actionName moodName ≠ [] then some (catalog actionName moodName)
  else if catalog actionName "normal" ≠ [] then some (catalog actionName "normal")
  else if catalog "idle" moodName ≠ [] then some (catalog "idle" moodName)
  else if catalog "idle" "normal" ≠ [] then some (catalog "idle" "normal")
  else none

/-- Both vitals lie in the interval from 0 to 100. -/
def VitalsIn (p : PetModel) : Prop :=
  0 ≤ p.energy ∧ p.energy ≤ 100 ∧ 0 ≤ p.happiness ∧ p.happiness ≤ 100

/-- The configured decay, regeneration and gain rates are nonnegative, as the
shipped defaults are. -/
def CfgRatesOk (cfg : Config) : Prop :=
  0 ≤ cfg.decay_energy_working ∧ 0 ≤ cfg.decay_happiness_working ∧
  0 ≤ cfg.regen_energy_idle ∧ 0 ≤ cfg.decay_happiness_idle ∧
  0 ≤ cfg.regen_energy_sleeping ∧ 0 ≤ cfg.regen_happiness_sleeping ∧
  0 ≤ cfg.happiness_on_click ∧ 0 ≤ cfg.energy_on_feed ∧
  0 ≤ cfg.happiness_on_feed

/-- A controller whose pet is Working on its default Work action. -/
def workingCtrl : PetController :=
  { pet := { initPet with state := .working, current_action := .work },
    temporary_action_info := none, last_state_update := 0 }

/-- A controller whose pet is Sleeping with the Sleepy entry mood. -/
def sleepCtrl : PetController :=
  { pet := { initPet with state := StateType.sleeping, mood := MoodType.sleepy, current_action := ActionType.sleep },
    temporary_action_info := none, last_state_update := 0 }

/-- A controller holding an expired temporary-action record for React while
the current action has moved on to Work. -/
def staleCtrl : PetController :=
  { pet := { initPet with current_action := .work },
    temporary_action_info := some ⟨.react, 5⟩, last_state_update := 0 }

/-- A disk layout with frames only in the idle action folder. -/
def exDisk : String → List Frame :=
  fun s => if s = "idle" then [1, 2] else []

/-- set_mood only rewrites the mood field. -/
lemma set_mood_fst (c : PetController) (m : MoodType) :
    (set_mood c m).1 = { c with pet := { c.pet with mood := m } } := by
  by_cases h : c.pet.mood = m
  · simp only [set_mood, h, if_pos]
    rw [← h]
  · simp only [set_mood, h, if_neg, if_false]

/-- The temporary-action record produced by one set_action call. -/
def temp_after (a : ActionType) (duration : Option ℚ) (now : ℚ) :
    Option TempInfo :=
  match duration with
  | some d => if d > 0 then some ⟨a, now + d⟩ else none
  | none => none

/-- set_action rewrites the current action and the temporary record only. -/
lemma set_action_fst (c : PetController) (a : ActionType) (dur : Option ℚ)
    (now : ℚ) :
    (set_action c a dur now).1 =
      { c with pet := { c.pet with current_action := a },
               temporary_action_info := temp_after a dur now } := by
  unfold set_action temp_after
  cases dur with
  | none => rfl
  | some d =>
      by_cases h : d > 0 <;> simp [h]

/-- update_mood_based_on_stats only rewrites the mood field. -/
lemma update_mood_fst (cfg : Config) (c : PetController) :
    (update_mood_based_on_stats cfg c).1 =
      { c with pet := { c.pet with mood := computed_mood cfg c } } := by
  by_cases h : c.pet.mood = computed_mood cfg c
  · simp only [update_mood_based_on_stats, h, ne_eq, not_true_eq_false,
      if_false, ite_false]
    rw [← h]
  · simp only [update_mood_based_on_stats, h, ne_eq, not_false_eq_true,
      if_true, ite_true, set_mood_fst]

@[simp] lemma set_mood_mood (c : PetController) (m : MoodType) :
    (set_mood c m).1.pet.mood = m := by rw [set_mood_fst]

@[simp] lemma set_mood_state (c : PetController) (m : MoodType) :
    (set_mood c m).1.pet.state = c.pet.state := by rw [set_mood_fst]

@[simp] lemma set_mood_action (c : PetController) (m : MoodType) :
    (set_mood c m).1.pet.current_action = c.pet.current_action := by
  rw [set_mood_fst]

@[simp] lemma set_mood_energy (c : PetController) (m : MoodType) :
    (set_mood c m).1.pet.energy = c.pet.energy := by rw [set_mood_fst]

@[simp] lemma set_mood_happiness (c : PetController) (m : MoodType) :
    (set_mood c m).1.pet.happiness = c.pet.happiness := by rw [set_mood_fst]

@[simp] lemma set_mood_temp (c : PetController) (m : MoodType) :
    (set_mood c m).1.temporary_action_info = c.temporary_action_info := by
  rw [set_mood_fst]

@[simp] lemma set_mood_pet_type (c : PetController) (m : MoodType) :
    (set_mood c m).1.pet.pet_type = c.pet.pet_type := by rw [set_mood_fst]

@[simp] lemma set_action_action (c : PetController) (a : ActionType)
    (dur : Option ℚ) (now : ℚ) :
    (set_action c a dur now).1.pet.current_action = a := by rw [set_action_fst]

@[simp] lemma set_action_state (c : PetController) (a : ActionType)
    (dur : Option ℚ) (now : ℚ) :
    (set_action c a dur now).1.pet.state = c.pet.state := by rw [set_action_fst]

@[simp] lemma set_action_mood (c : PetController) (a : ActionType)
    (dur : Option ℚ) (now : ℚ) :
    (set_action c a dur now).1.pet.mood = c.pet.mood := by rw [set_action_fst]

@[simp] lemma set_action_energy (c : PetController) (a : ActionType)
    (dur : Option ℚ) (now : ℚ) :
    (set_action c a dur now).1.pet.energy = c.pet.energy := by
  rw [set_action_fst]

@[simp] lemma set_action_happiness (c : PetController) (a : ActionType)
    (dur : Option ℚ) (now : ℚ) :
    (set_action c a dur now).1.pet.happiness = c.pet.happiness := by
  rw [set_action_fst]

@[simp] lemma set_action_temp (c : PetController) (a : ActionType)
    (dur : Option ℚ) (now : ℚ) :
    (set_action c a dur now).1.temporary_action_info = temp_after a dur now := by
  rw [set_action_fst]

@[simp] lemma set_action_pet_type (c : PetController) (a : ActionType)
    (dur : Option ℚ) (now : ℚ) :
    (set_action c a dur now).1.pet.pet_type = c.pet.pet_type := by
  rw [set_action_fst]

@[simp] lemma update_mood_mood (cfg : Config) (c : PetController) :
    (update_mood_based_on_stats cfg c).1.pet.mood = computed_mood cfg c := by
  rw [update_mood_fst]

@[simp] lemma update_mood_state (cfg : Config) (c : PetController) :
    (update_mood_based_on_stats cfg c).1.pet.state = c.pet.state := by
  rw [update_mood_fst]

@[simp] lemma update_mood_action (cfg : Config) (c : PetController) :
    (update_mood_based_on_stats cfg c).1.pet.current_action =
      c.pet.current_action := by
  rw [update_mood_fst]

@[simp] lemma update_mood_energy (cfg : Config) (c : PetController) :
    (update_mood_based_on_stats cfg c).1.pet.energy = c.pet.energy := by
  rw [update_mood_fst]

@[simp] lemma update_mood_happiness (cfg : Config) (c : PetController) :
    (update_mood_based_on_stats cfg c).1.pet.happiness = c.pet.happiness := by
  rw [update_mood_fst]

@[simp] lemma update_mood_temp (cfg : Config) (c : PetController) :
    (update_mood_based_on_stats cfg c).1.temporary_action_info =
      c.temporary_action_info := by
  rw [update_mood_fst]

/-- set_state always leaves the pet in the requested state, leaving the
vitals untouched. -/
lemma set_state_fst (c : PetController) (s : StateType) (now playDur : ℚ) :
    (set_state c s now playDur).1.pet.state = s ∧
    (set_state c s now playDur).1.pet.energy = c.pet.energy ∧
    (set_state c s now playDur).1.pet.happiness = c.pet.happiness := by
  by_cases h : c.pet.state = s
  · subst h
    simp only [set_state, if_pos rfl]
    by_cases h2 : c.pet.current_action = default_action_for_state c.pet.state
    · simp [h2]
    · simp [h2]
  · simp only [set_state, if_neg h]
    cases s with
    | working =>
        by_cases hE : c.pet.energy > 70
        · simp [hE]
        · by_cases hE2 : c.pet.energy < 30 <;> simp [hE, hE2]
    | idle =>
        by_cases hI : c.pet.energy > 70 ∧ c.pet.happiness > 60
        · simp [hI]
        · by_cases hE2 : c.pet.energy < 30 <;> simp [hI, hE2]
    | sleeping => simp

/-- Every single set_action call reestablishes the temporary-action
invariant: the record it installs, if any, names the action it just made
current. -/
lemma set_action_temp_ok (c : PetController) (a : ActionType) (dur : Option ℚ)
    (now : ℚ) : temp_ok (set_action c a dur now).1 = true := by
  unfold temp_ok
  rw [set_action_fst]
  unfold temp_after
  cases dur with
  | none => rfl
  | some d => by_cases h : d > 0 <;> simp [h]

/-- The dispatch loop calls exactly the snapshotted handlers, in order,
whatever the handlers do to the bus and whether or not they raise. -/
lemma emitRun_snd (run : Handler → EvData → EventSystem → EventSystem × Bool)
    (hs : List Handler) (d : EvData) (s : EventSystem) :
    (emitRun run hs d s).2 = hs := by
  induction hs generalizing s with
  | nil => rfl
  | cons h rest ih => simp [emitRun, ih]

/-- Updating a key in the listeners table makes lookup return the new list. -/
lemma lookupL_setL (l : List (String × List Handler)) (name : String)
    (v : List Handler) : lookupL (setL l name v) name = some v := by
  induction l with
  | nil => simp [setL, lookupL]
  | cons p rest ih =>
      obtain ⟨k, w⟩ := p
      by_cases h : k = name
      · simp [setL, lookupL, h]
      · simp [setL, lookupL, h, ih]

/-- C1: over any sequence of set_action calls the controller keeps at most
one temporary-action record (it is a single optional field), and whenever a
record is present its action equals the current_action of the model, as each
call clears the old record and only installs one naming the action it just
set. -/
theorem C1_set_action_preserves_temp_invariant (c : PetController)
    (calls : List (ActionType × Option ℚ × ℚ)) (h : temp_ok c = true) :
    temp_ok (apply_set_actions c calls) = true ∧
    ∀ a dur now, temp_ok (set_action (apply_set_actions c calls) a dur now).1 =
      true := by
  constructor
  · induction calls generalizing c with
    | nil => exact h
    | cons p rest ih =>
        obtain ⟨a, d, t⟩ := p
        exact ih (set_action c a d t).1 (set_action_temp_ok c a d t)
  · intro a dur now
    exact set_action_temp_ok _ a dur now

/-- Witness for C1 at a concrete call sequence from the initial controller. -/
theorem C1_set_action_preserves_temp_invariant_witness :
    temp_ok (apply_set_actions initCtrl
      [(ActionType.react, some 2, 0), (ActionType.work, none, 1),
       (ActionType.celebrate, some 4, 1)]) = true :=
  (C1_set_action_preserves_temp_invariant initCtrl
    [(ActionType.react, some 2, 0), (ActionType.work, none, 1),
     (ActionType.celebrate, some 4, 1)] (by decide)).1

/-- C2: when the pending record has expired but current_action has moved on,
the expiry check only clears the record — it emits nothing, leaves
current_action alone, and the whole periodic update behaves exactly like the
vitals phase run on the merely-cleared controller. -/
theorem C2_stale_expiry_skips_reversion (cfg : Config) (c : PetController)
    (info : TempInfo) (now : ℚ)
    (h1 : c.temporary_action_info = some info)
    (h2 : now ≥ info.end_time)
    (h3 : c.pet.current_action ≠ info.action) :
    check_temporary_action c now =
      ({ c with temporary_action_info := none }, []) ∧
    update_pet_stats_periodically cfg c now =
      periodic_core_update cfg { c with temporary_action_info := none } now := by
  have hchk : check_temporary_action c now =
      ({ c with temporary_action_info := none }, []) := by
    unfold check_temporary_action
    rw [h1]
    simp [h2, h3]
  refine ⟨hchk, ?_⟩
  unfold update_pet_stats_periodically
  rw [hchk]
  simp

/-- Witness for C2 on a controller with an expired React record while the
current action is Work. -/
theorem C2_stale_expiry_skips_reversion_witness :
    check_temporary_action staleCtrl 6 =
      ({ staleCtrl with temporary_action_info := none }, []) :=
  (C2_stale_expiry_skips_reversion defaultConfig staleCtrl
    ⟨ActionType.react, 5⟩ 6 rfl (show (6:ℚ) ≥ 5 by norm_num) (by decide)).1

/-- C3: a click on the non-sleeping pet with the random draw below 0.5 makes
the handler evaluate MoodType.SURPRISED, which does not exist in model.py,
so it aborts with an AttributeError (swallowed by the bus): no mood change,
no React action, no happiness gain, no events. -/
theorem C3_click_surprised_branch_aborts :
    on_pet_interaction defaultConfig initCtrl "click" "cat" true 2 5 100 =
      (initCtrl, [], true) := rfl

/-- C4 counterexample: with frames on disk only for the idle action, playing
(eat, excited) makes the player report failure, although the four-step
fallback chain of the spec resolves a non-empty sequence (step 3, the idle
folder), so the code does not implement the chain. -/
theorem C4_fallback_chain_counterexample :
    (process_play_animation_event exDisk freshAnimator "eat" "excited").2 =
      PlayResult.setFailed ∧
    specFallbackResolve (fun a _ => exDisk a) "eat" "excited" = some [1, 2] := by
  exact ⟨rfl, rfl⟩

/-- C4 amended: resolution uses the action name alone — the mood in the event
is ignored and no (action, Normal) or (Idle, mood) fallback is attempted; a
fresh player plays the action folder when it has frames and otherwise
reports failure. -/
theorem C4_resolution_by_action_only (disk : String → List Frame)
    (action mood : String) :
    (∀ a : AnimatorS, process_play_animation_event disk a action mood =
      play_animation disk a action) ∧
    (process_play_animation_event disk freshAnimator action mood).2 =
      (if disk action = [] then PlayResult.setFailed
       else PlayResult.played (disk action)) := by
  refine ⟨fun a => rfl, ?_⟩
  by_cases hd : disk action = [] <;>
    simp [process_play_animation_event, play_animation, set_current_animation,
      load_animation_sequence, freshAnimator, lookupA, hd]

/-- C7: emit dispatches to the snapshot of the handler list taken at the
start — in stored (registration) order, unaffected by what handlers do to
the table and total even when handlers raise — the data defaults to the
empty dict when omitted, and register appends a new handler at the tail. -/
theorem C7_emit_snapshot_order_isolation
    (run : Handler → EvData → EventSystem → EventSystem × Bool)
    (s : EventSystem) (name : String) (data : Option EvData) (h0 : Handler) :
    (emitH run s name data).2.1 = (lookupL s.listeners name).getD [] ∧
    (emitH run s name none).2.2 = [] ∧
    (emitH run s name data).2.2 = data.getD [] ∧
    (h0 ∉ (lookupL s.listeners name).getD [] →
      lookupL (registerH s name h0).listeners name =
        some ((lookupL s.listeners name).getD [] ++ [h0])) := by
  refine ⟨?_, ?_, ?_, ?_⟩
  · unfold emitH
    cases hl : lookupL s.listeners name <;> simp [hl, emitRun_snd]
  · unfold emitH
    cases hl : lookupL s.listeners name <;> simp [hl]
  · unfold emitH
    cases hl : lookupL s.listeners name <;> simp [hl]
  · intro hmem
    unfold registerH
    rw [if_neg hmem]
    exact lookupL_setL s.listeners name _

/-- Witness for C7 at a concrete bus, with a raising handler behaviour. -/
theorem C7_emit_snapshot_order_isolation_witness :
    lookupL (registerH ⟨[("evt", [1, 2])]⟩ "evt" 3).listeners "evt" =
      some ((lookupL (EventSystem.mk [("evt", [1, 2])]).listeners "evt").getD []
        ++ [3]) :=
  (C7_emit_snapshot_order_isolation (fun _ _ s => (s, true))
    ⟨[("evt", [1, 2])]⟩ "evt" none 3).2.2.2 (by decide)

/-- C9: set_mood is a strict no-op (no event, no model change) when the new
mood equals the current one; otherwise it updates exactly the mood field and
emits pet_mood_changed once, so setting the same value twice emits exactly
once, at the first change. -/
theorem C9_set_mood_no_op_and_single_emit (c : PetController) (m : MoodType) :
    (c.pet.mood = m → set_mood c m = (c, [])) ∧
    (c.pet.mood ≠ m →
      (set_mood c m).1 = { c with pet := { c.pet with mood := m } } ∧
      (set_mood c m).2 =
        [Emitted.moodChanged c.pet.pet_type c.pet.mood.value m.value]) ∧
    (set_mood (set_mood c m).1 m).2 = [] := by
  refine ⟨?_, ?_, ?_⟩
  · intro h
    simp [set_mood, h]
  · intro h
    exact ⟨set_mood_fst c m, by simp [set_mood, h]⟩
  · have hm := set_mood_mood c m
    generalize hX : (set_mood c m).1 = X at hm ⊢
    simp [set_mood, hm]

/-- Witness for C9 applied to the initial controller and a differing mood. -/
theorem C9_set_mood_no_op_and_single_emit_witness :
    (set_mood initCtrl MoodType.happy).1 =
      { initCtrl with pet := { initCtrl.pet with mood := MoodType.happy } } ∧
    (set_mood initCtrl MoodType.happy).2 =
      [Emitted.moodChanged initCtrl.pet.pet_type initCtrl.pet.mood.value
        MoodType.happy.value] :=
  (C9_set_mood_no_op_and_single_emit initCtrl MoodType.happy).2.1 (by decide)

/-- C10: every set_action call emits ui_play_animation with the character
type, the action name and the current mood name — also when the action is
unchanged — and additionally emits pet_action_changed exactly when the
action actually changes. -/
theorem C10_set_action_always_plays (c : PetController) (a : ActionType)
    (dur : Option ℚ) (now : ℚ) :
    (set_action c a dur now).2 =
      Emitted.playAnimation c.pet.pet_type a.value c.pet.mood.value ::
        (if c.pet.current_action ≠ a then
          [Emitted.actionChanged c.pet.pet_type c.pet.current_action.value
            a.value]
        else []) := by
  unfold set_action
  cases dur with
  | none => rfl
  | some d => by_cases h : d > 0 <;> simp [h]

/-- C5 counterexample: programming_idle with idle_time 1000 (≤ 1800) while
Working leaves the state Working — the code never moves the state to Idle in
this branch, contrary to the claim. -/
theorem C5_state_stays_working_counterexample :
    (on_programming_idle defaultConfig workingCtrl 1000 0 5).1.pet.state =
      StateType.working ∧ StateType.working ≠ StateType.idle := by
  constructor
  · have h1 : ¬((1000:ℚ) > defaultConfig.idle_to_sleep_in_work) := by
      norm_num [defaultConfig]
    have h2 : (1000:ℚ) > defaultConfig.idle_to_bored_in_work := by
      norm_num [defaultConfig]
    simp [on_programming_idle, workingCtrl, initPet, h1, h2]
  · decide

/-- C5 amended: while Working, an idle_time in the bored window (above the
bored threshold, at most the sleep threshold) keeps the state Working, sets
the mood to Relaxed, installs a timed Rest action and emits user_maybe_afk;
an idle_time at or below the bored threshold changes nothing. -/
theorem C5_bored_window_rest (cfg : Config) (c : PetController)
    (idle_time now playDur : ℚ) (hW : c.pet.state = .working) :
    (idle_time ≤ cfg.idle_to_sleep_in_work →
      cfg.idle_to_bored_in_work < idle_time →
      0 < cfg.rest_when_bored →
      (on_programming_idle cfg c idle_time now playDur).1.pet.state =
        StateType.working ∧
      (on_programming_idle cfg c idle_time now playDur).1.pet.mood =
        MoodType.relaxed ∧
      (on_programming_idle cfg c idle_time now playDur).1.pet.current_action =
        ActionType.rest ∧
      (on_programming_idle cfg c idle_time now playDur).1.temporary_action_info
        = some ⟨ActionType.rest, now + cfg.rest_when_bored⟩ ∧
      Emitted.userMaybeAfk ∈
        (on_programming_idle cfg c idle_time now playDur).2) ∧
    (idle_time ≤ cfg.idle_to_bored_in_work →
      idle_time ≤ cfg.idle_to_sleep_in_work →
      on_programming_idle cfg c idle_time now playDur = (c, [])) := by
  constructor
  · intro hs hb hr
    have h1 : ¬(idle_time > cfg.idle_to_sleep_in_work) := not_lt.mpr hs
    simp [on_programming_idle, hW, h1, hb, temp_after, hr]
  · intro hb hs
    have h1 : ¬(idle_time > cfg.idle_to_sleep_in_work) := not_lt.mpr hs
    have h2 : ¬(idle_time > cfg.idle_to_bored_in_work) := not_lt.mpr hb
    simp [on_programming_idle, hW, h1, h2]

/-- Witness for the amended C5 at the defaults with idle_time 1000. -/
theorem C5_bored_window_rest_witness :
    (on_programming_idle defaultConfig workingCtrl 1000 0 5).1.pet.state =
      StateType.working ∧
    (on_programming_idle defaultConfig workingCtrl 1000 0 5).1.pet.mood =
      MoodType.relaxed ∧
    (on_programming_idle defaultConfig workingCtrl 1000 0 5).1.pet.current_action
      = ActionType.rest ∧
    (on_programming_idle defaultConfig workingCtrl 1000 0 5).1.temporary_action_info
      = some ⟨ActionType.rest, 0 + defaultConfig.rest_when_bored⟩ ∧
    Emitted.userMaybeAfk ∈
      (on_programming_idle defaultConfig workingCtrl 1000 0 5).2 :=
  (C5_bored_window_rest defaultConfig workingCtrl 1000 0 5 (by decide)).1
    (by norm_num [defaultConfig]) (by norm_num [defaultConfig])
    (by norm_num [defaultConfig])

/-- C6 counterexample: clicking the sleeping pet (mood Sleepy, energy 100,
happiness 60) does not leave the mood unchanged — the wake path recomputes
it through the Idle entry rule and the stats rule, ending at Normal. -/
theorem C6_wake_mood_changes_counterexample :
    sleepCtrl.pet.mood = MoodType.sleepy ∧
    (on_pet_interaction defaultConfig sleepCtrl "click" "cat" false 2 5
      100).1.pet.mood = MoodType.normal ∧
    MoodType.normal ≠ MoodType.sleepy := by
  refine ⟨rfl, ?_, by decide⟩
  decide

/-- C6 amended: clicking the pet while Sleeping always moves the state to
Idle without raising; the mood is then recomputed by the Idle entry rule and
the stats-based rule rather than kept. -/
theorem C6_click_wakes_to_idle (cfg : Config) (c : PetController)
    (surprised : Bool) (reactDur playDur now : ℚ)
    (hS : c.pet.state = .sleeping) :
    (on_pet_interaction cfg c "click" c.pet.pet_type surprised reactDur
      playDur now).1.pet.state = StateType.idle ∧
    (on_pet_interaction cfg c "click" c.pet.pet_type surprised reactDur
      playDur now).2.2 = false := by
  have h := (set_state_fst c .idle now playDur).1
  simp [on_pet_interaction, hS, h]

/-- Witness for the amended C6 on the concrete sleeping controller. -/
theorem C6_click_wakes_to_idle_witness :
    (on_pet_interaction defaultConfig sleepCtrl "click" sleepCtrl.pet.pet_type
      false 2 5 100).1.pet.state = StateType.idle ∧
    (on_pet_interaction defaultConfig sleepCtrl "click" sleepCtrl.pet.pet_type
      false 2 5 100).2.2 = false :=
  C6_click_wakes_to_idle defaultConfig sleepCtrl false 2 5 100 (by decide)

/-- The energy written by the periodic vitals tick. -/
lemma periodic_core_energy (cfg : Config) (c : PetController) (now : ℚ) :
    (periodic_core_update cfg c now).1.pet.energy =
      if now - c.last_state_update ≥ cfg.state_update_interval then
        (match c.pet.state with
         | .working => max 0 (c.pet.energy - cfg.decay_energy_working)
         | .idle => min 100 (c.pet.energy + cfg.regen_energy_idle)
         | .sleeping => min 100 (c.pet.energy + cfg.regen_energy_sleeping))
      else c.pet.energy := by
  unfold periodic_core_update
  by_cases ht : now - c.last_state_update ≥ cfg.state_update_interval
  · rw [if_pos ht, if_pos ht]
    cases hs : c.pet.state <;> simp [hs] <;> split_ifs <;> simp
  · rw [if_neg ht, if_neg ht]

/-- The happiness written by the periodic vitals tick. -/
lemma periodic_core_happiness (cfg : Config) (c : PetController) (now : ℚ) :
    (periodic_core_update cfg c now).1.pet.happiness =
      if now - c.last_state_update ≥ cfg.state_update_interval then
        (match c.pet.state with
         | .working => max 0 (c.pet.happiness - cfg.decay_happiness_working)
         | .idle =>
             if c.pet.mood = .playful then min 100 (c.pet.happiness + 1)
             else max 0 (c.pet.happiness - cfg.decay_happiness_idle)
         | .sleeping => min 100 (c.pet.happiness + cfg.regen_happiness_sleeping))
      else c.pet.happiness := by
  unfold periodic_core_update
  by_cases ht : now - c.last_state_update ≥ cfg.state_update_interval
  · rw [if_pos ht, if_pos ht]
    cases hs : c.pet.state <;> simp [hs] <;> split_ifs <;> simp
  · rw [if_neg ht, if_neg ht]

/-- Subtracting a nonnegative amount and clamping below keeps the interval. -/
lemma clamp_sub_mem (x d : ℚ) (hx1 : x ≤ 100) (hd : 0 ≤ d) :
    0 ≤ max 0 (x - d) ∧ max 0 (x - d) ≤ 100 :=
  ⟨le_max_left 0 _, max_le (by norm_num) (by linarith)⟩

/-- Adding a nonnegative amount and clamping above keeps the interval. -/
lemma clamp_add_mem (x g : ℚ) (hx0 : 0 ≤ x) (hg : 0 ≤ g) :
    0 ≤ min 100 (x + g) ∧ min 100 (x + g) ≤ 100 :=
  ⟨le_min (by norm_num) (by linarith), min_le_left _ _⟩

/-- The expiry check never touches the vitals. -/
lemma check_temp_vitals (c : PetController) (now : ℚ) :
    (check_temporary_action c now).1.pet.energy = c.pet.energy ∧
    (check_temporary_action c now).1.pet.happiness = c.pet.happiness := by
  unfold check_temporary_action
  cases h : c.temporary_action_info with
  | none => exact ⟨rfl, rfl⟩
  | some info =>
      by_cases h2 : now ≥ info.end_time
      · by_cases h3 : c.pet.current_action = info.action <;> simp [h2, h3]
      · simp [h2]

/-- The periodic vitals tick keeps both vitals inside the interval. -/
lemma periodic_core_vitals (cfg : Config) (c : PetController) (now : ℚ)
    (hv : VitalsIn c.pet) (hc : CfgRatesOk cfg) :
    VitalsIn (periodic_core_update cfg c now).1.pet := by
  obtain ⟨he0, he1, hh0, hh1⟩ := hv
  obtain ⟨d1, d2, d3, d4, d5, d6, g1, g2, g3⟩ := hc
  have hE := periodic_core_energy cfg c now
  have hH := periodic_core_happiness cfg c now
  by_cases ht : now - c.last_state_update ≥ cfg.state_update_interval
  · rw [if_pos ht] at hE hH
    cases hs : c.pet.state with
    | working =>
        rw [hs] at hE hH
        have h1 := clamp_sub_mem c.pet.energy cfg.decay_energy_working he1 d1
        have h2 :=
          clamp_sub_mem c.pet.happiness cfg.decay_happiness_working hh1 d2
        exact ⟨hE ▸ h1.1, hE ▸ h1.2, hH ▸ h2.1, hH ▸ h2.2⟩
    | idle =>
        rw [hs] at hE hH
        have h1 := clamp_add_mem c.pet.energy cfg.regen_energy_idle he0 d3
        by_cases hm : c.pet.mood = .playful
        · rw [if_pos hm] at hH
          have h2 := clamp_add_mem c.pet.happiness 1 hh0 (by norm_num)
          exact ⟨hE ▸ h1.1, hE ▸ h1.2, hH ▸ h2.1, hH ▸ h2.2⟩
        · rw [if_neg hm] at hH
          have h2 := clamp_sub_mem c.pet.happiness cfg.decay_happiness_idle hh1 d4
          exact ⟨hE ▸ h1.1, hE ▸ h1.2, hH ▸ h2.1, hH ▸ h2.2⟩
    | sleeping =>
        rw [hs] at hE hH
        have h1 := clamp_add_mem c.pet.energy cfg.regen_energy_sleeping he0 d5
        have h2 :=
          clamp_add_mem c.pet.happiness cfg.regen_happiness_sleeping hh0 d6
        exact ⟨hE ▸ h1.1, hE ▸ h1.2, hH ▸ h2.1, hH ▸ h2.2⟩
  · rw [if_neg ht] at hE hH
    exact ⟨hE ▸ he0, hE ▸ he1, hH ▸ hh0, hH ▸ hh1⟩

/-- C8: starting from vitals in the interval from 0 to 100 and nonnegative
configured rates, both the periodic vitals tick (for Working, Idle and
Sleeping, including the expiry phase before it) and every pet_interaction
branch (click happiness gain, feed energy and happiness gains) leave energy
and happiness inside the interval. -/
theorem C8_vitals_always_clamped (cfg : Config) (c : PetController)
    (now reactDur playDur : ℚ) (itype character : String) (surprised : Bool)
    (hv : VitalsIn c.pet) (hc : CfgRatesOk cfg) :
    VitalsIn (update_pet_stats_periodically cfg c now).1.pet ∧
    VitalsIn (on_pet_interaction cfg c itype character surprised reactDur
      playDur now).1.pet := by
  constructor
  · unfold update_pet_stats_periodically
    have hcv := check_temp_vitals c now
    refine periodic_core_vitals cfg (check_temporary_action c now).1 now
      ?_ hc
    exact ⟨hcv.1 ▸ hv.1, hcv.1 ▸ hv.2.1, hcv.2 ▸ hv.2.2.1, hcv.2 ▸ hv.2.2.2⟩
  · obtain ⟨he0, he1, hh0, hh1⟩ := hv
    obtain ⟨d1, d2, d3, d4, d5, d6, g1, g2, g3⟩ := hc
    unfold on_pet_interaction
    by_cases hch : character ≠ c.pet.pet_type
    · rw [if_pos hch]
      exact ⟨he0, he1, hh0, hh1⟩
    · rw [if_neg hch]
      by_cases hclick : itype = "click"
      · rw [if_pos hclick]
        by_cases hsl : c.pet.state = .sleeping
        · rw [if_pos hsl]
          have hs := set_state_fst c .idle now playDur
          refine ⟨?_, ?_, ?_, ?_⟩ <;>
            simp [hs.2.1, hs.2.2] <;> assumption
        · rw [if_neg hsl]
          cases surprised with
          | true => exact ⟨he0, he1, hh0, hh1⟩
          | false =>
              simp only [Bool.false_eq_true, if_false, ite_false]
              refine ⟨?_, ?_, ?_, ?_⟩ <;> simp <;> linarith
      · rw [if_neg hclick]
        by_cases hfeed : itype = "feed"
        · rw [if_pos hfeed]
          by_cases hsl : c.pet.state ≠ .sleeping
          · rw [if_pos hsl]
            refine ⟨?_, ?_, ?_, ?_⟩ <;> simp <;> linarith
          · rw [if_neg hsl]
            refine ⟨?_, ?_, ?_, ?_⟩ <;> simp <;> assumption
        · rw [if_neg hfeed]
          refine ⟨?_, ?_, ?_, ?_⟩ <;> simp <;> assumption

/-- Witness for C8 at the initial controller and the default rates. -/
theorem C8_vitals_always_clamped_witness :
    VitalsIn (update_pet_stats_periodically defaultConfig initCtrl 100).1.pet ∧
    VitalsIn (on_pet_interaction defaultConfig initCtrl "feed" "cat" false 2 5
      100).1.pet :=
  C8_vitals_always_clamped defaultConfig initCtrl 100 2 5 "feed" "cat" false
    (by norm_num [VitalsIn, initCtrl, initPet])
    (by norm_num [CfgRatesOk, defaultConfig])

end CodePet
